import Mathlib

/-!
Verification of the two-phase training orchestrator in `src/utils/trainer.py`
(repository `TFAHG/crop-type-mapping`).

The `Trainer` class is embedded shallowly: its configuration and mutable state
become a Lean structure, its pure helpers (`get_phase`, the checkpoint file
names, `loss_criterion`) become Lean functions, and the `fit` epoch loop is
embedded twice, at two levels of abstraction:

* `fitFrom` produces the trace of phase events, train passes, test passes and
  report steps that one run of `fit` performs, starting from a given epoch
  counter (the loop body of `fit` together with `new_epoch` and
  `check_events`, source lines 105-161);
* `fitRun` follows the same loop but tracks the data actually available to
  the per-epoch visual-report step (the `visdom` attribute and the keys of
  the `stats` mapping), returning the error the report step raises when a
  dereference or key lookup fails.

External collaborators (Model, Logger, optimizer, metric accumulator) are kept
abstract: their states are opaque type parameters, and a loss computation is
represented by the `ModelCall` it delegates to rather than by its numeric
value, exactly as the dispatch code selects it.
-/

set_option autoImplicit false

namespace CropSpec

/-- Source line 6: `CLASSIFICATION_PHASE_NAME="classification"`. -/
def CLASSIFICATION_PHASE_NAME : String := "classification"

/-- Source line 7: `EARLINESS_PHASE_NAME="earliness"`. -/
def EARLINESS_PHASE_NAME : String := "earliness"

/-- The `Trainer` object (source lines 9-47): configuration captured by
`__init__` plus the mutable state (`epoch`, and the opaque states owned by the
model, the optimizer and the logger).  `M`, `O`, `L` are the opaque state
types of the model weights, the optimizer and the logger; `F` is the numeric
type of the earliness and entropy factors (kept abstract, the dispatch only
passes them through). -/
structure Trainer (M O L F : Type) where
  epochs : Nat
  switch_epoch : Nat
  test_every_n_epochs : Nat
  earliness_factor : F
  entropy_factor : F
  lossmode : String
  store : String
  epoch : Nat
  modelState : M
  optimizerState : O
  loggerData : L

variable {M O L F I T : Type}

/-- Source lines 148-152: `get_phase` compares the current epoch counter with
`switch_epoch` and returns one of the two phase-name strings. -/
def get_phase (t : Trainer M O L F) : String :=
  if t.epoch < t.switch_epoch then CLASSIFICATION_PHASE_NAME
  else EARLINESS_PHASE_NAME

/-- Source line 163-164: `os.path.join(self.store, "model_{}.pth".format(...))`
with the classification phase name. -/
def get_classification_model_name (store : String) : String :=
  store ++ "/model_" ++ CLASSIFICATION_PHASE_NAME ++ ".pth"

/-- Source line 166-167: the earliness checkpoint path. -/
def get_earliness_model_name (store : String) : String :=
  store ++ "/model_" ++ EARLINESS_PHASE_NAME ++ ".pth"

/-- A delegation to one of the Model loss functions (the external collaborator
interface consumed by `loss_criterion`, source lines 68-99).  `I` and `T` are
the opaque batch input and target types. -/
inductive ModelCall (I T F : Type) where
  | loss_cross_entropy (inputs : I) (targets : T)
  | early_loss (inputs : I) (targets : T) (factor : F)
  | early_loss_simple (inputs : I) (targets : T) (alpha : F)
  | early_loss_linear (inputs : I) (targets : T) (alpha : F) (entropy_factor : F)
  | early_loss_cross_entropy (inputs : I) (targets : T) (alpha : F) (entropy_factor : F)
  deriving DecidableEq

/-- Outcome of one call to `loss_criterion`: a delegation to the Model, the
implicit Python `None` fall-through of an `if`/`elif` chain with no `else`
(unreachable when the guard exhausts both phases), or a raised `ValueError`
carrying its message. -/
inductive LossOutcome (I T F : Type) where
  | call (c : ModelCall I T F)
  | noneReturn
  | error (msg : String)
  deriving DecidableEq

/-- The exact `ValueError` message of source lines 102-103 (two adjacent
Python string literals, concatenated; note the double space after the first
comma).  `\x27` is the ASCII apostrophe. -/
def wrongLossModeMsg : String :=
  "wrong loss_mode please choose either \x27early_reward\x27,  " ++
    "\x27twophase_early_reward\x27, \x27twophase_linear_loss\x27, or \x27twophase_cross_entropy\x27"

/-- The loss-mode strings accepted by the dispatch chain of
`loss_criterion` (source lines 74-99). -/
def acceptedLossModes : List String :=
  ["early_reward", "loss_cross_entropy", "twophase_early_reward",
   "twophase_linear_loss", "twophase_cross_entropy"]

/-- Source lines 68-103, `Trainer.loss_criterion`: an `epoch` argument of
`None` short-circuits to plain cross-entropy; otherwise the configured
`lossmode` string is dispatched, the two-phase modes branching on
`get_phase` (which reads `self.epoch`, not the `epoch` argument); an
unrecognized mode raises `ValueError` with `wrongLossModeMsg`. -/
def loss_criterion (t : Trainer M O L F) (inputs : I) (targets : T)
    (epoch : Option Nat) (earliness_factor entropy_factor : F) :
    LossOutcome I T F :=
  if epoch = none then
    .call (.loss_cross_entropy inputs targets)
  else if t.lossmode = "early_reward" then
    .call (.early_loss inputs targets earliness_factor)
  else if t.lossmode = "loss_cross_entropy" then
    .call (.loss_cross_entropy inputs targets)
  else if t.lossmode = "twophase_early_reward" then
    if get_phase t = CLASSIFICATION_PHASE_NAME then
      .call (.loss_cross_entropy inputs targets)
    else if get_phase t = EARLINESS_PHASE_NAME then
      .call (.early_loss_simple inputs targets earliness_factor)
    else .noneReturn
  else if t.lossmode = "twophase_linear_loss" then
    if get_phase t = CLASSIFICATION_PHASE_NAME then
      .call (.loss_cross_entropy inputs targets)
    else if get_phase t = EARLINESS_PHASE_NAME then
      .call (.early_loss_linear inputs targets earliness_factor entropy_factor)
    else .noneReturn
  else if t.lossmode = "twophase_cross_entropy" then
    if get_phase t = CLASSIFICATION_PHASE_NAME then
      .call (.loss_cross_entropy inputs targets)
    else if get_phase t = EARLINESS_PHASE_NAME then
      .call (.early_loss_cross_entropy inputs targets earliness_factor entropy_factor)
    else .noneReturn
  else
    .error wrongLossModeMsg

/-- The contents of a checkpoint file (source lines 61-66, `Trainer.snapshot`
passes these to `Model.save`; `Model.load` returns them on `resume`). -/
structure Snapshot (M O L : Type) where
  modelWeights : M
  optimizer_state_dict : O
  epoch : Nat
  logged_data : L

/-- Source lines 61-66, `Trainer.snapshot`: saves the model weights together
with the optimizer state, the epoch counter and the logged series.
`Model.save`/`Model.load` and `Logger.get_data`/`Logger.resume` are not under
`src/`; per the spec (sections 4.1 and 6) they persist and restore these
values opaquely, so they are embedded as the identity on the carried data. -/
def snapshot (t : Trainer M O L F) : Snapshot M O L :=
  { modelWeights := t.modelState
    optimizer_state_dict := t.optimizerState
    epoch := t.epoch
    logged_data := t.loggerData }

/-- Source lines 53-59, `Trainer.resume`: loads a snapshot and overwrites the
model weights, the epoch counter, the optimizer state and the logged series of
the receiving trainer; the configuration fields keep their constructor
values. -/
def resume (t : Trainer M O L F) (s : Snapshot M O L) : Trainer M O L F :=
  { t with
    modelState := s.modelWeights
    epoch := s.epoch
    optimizerState := s.optimizer_state_dict
    loggerData := s.logged_data }

/-- Whether the character list `pat` is an initial segment of `l`. -/
def startsWithChars : List Char → List Char → Bool
  | [], _ => true
  | _ :: _, [] => false
  | p :: ps, c :: cs => (p = c) && startsWithChars ps cs

/-- Whether the character list `pat` occurs contiguously inside `l`. -/
def occursInChars (pat : List Char) : List Char → Bool
  | [] => startsWithChars pat []
  | c :: cs => startsWithChars pat (c :: cs) || occursInChars pat cs

/-- Whether the string `msg` mentions `pat` as a contiguous substring. -/
def mentions (msg pat : String) : Bool :=
  occursInChars pat.toList msg.toList

example : mentions wrongLossModeMsg "early_reward" = true := by decide
example : mentions wrongLossModeMsg "loss_cross_entropy" = false := by decide

/-- The four phase events (source lines 169-181).  `endCls` prints and writes
the classification-slot checkpoint; `endEarl` prints and writes the
earliness-slot checkpoint; the two starting events only print. -/
inductive Ev where
  | startCls
  | endCls
  | startEarl
  | endEarl
  deriving DecidableEq

/-- One observable step of a run of `fit`: a phase event fired at a given
value of the epoch counter, a training pass, a test pass, or the per-epoch
visual-report step. -/
inductive Action where
  | event (epoch : Nat) (e : Ev)
  | train (epoch : Nat)
  | test (epoch : Nat)
  | report (epoch : Nat)
  deriving DecidableEq

/-- Source lines 154-161, `Trainer.check_events`: the events fired by one call
with the epoch counter at `epoch`, given `switch_epoch = sw` and the epoch
budget `ep`.  The three branches are mutually exclusive `if`/`elif` tests in
this order. -/
def check_events (epoch sw ep : Nat) : List Action :=
  if epoch = 0 then
    [.event epoch .startCls]
  else if epoch = sw then
    [.event epoch .endCls, .event epoch .startEarl]
  else if epoch = ep then
    [.event epoch .endEarl]
  else
    []

/-- Source lines 105-142, `Trainer.fit`, as the trace of steps it performs
starting with the epoch counter at `epoch`: while `epoch < epochs`, the loop
calls `new_epoch` (which runs `check_events` and then increments the
counter), runs a training pass, runs a test pass when the incremented counter
is a multiple of `test_every_n_epochs = cad`, and performs the visual-report
step; after the loop one final `check_events` runs. -/
def fitFrom (ep sw cad : Nat) (epoch : Nat) : List Action :=
  if _h : epoch < ep then
    check_events epoch sw ep
      ++ [Action.train (epoch + 1)]
      ++ (if (epoch + 1) % cad = 0 then [Action.test (epoch + 1)] else [])
      ++ [Action.report (epoch + 1)]
      ++ fitFrom ep sw cad (epoch + 1)
  else
    check_events epoch sw ep
termination_by ep - epoch

/-- The trace of a fresh run of `fit` (the constructor sets `epoch = 0`,
source line 47). -/
def fitTrace (ep sw cad : Nat) : List Action :=
  fitFrom ep sw cad 0

/-- The two checkpoint slots (spec section 3, "two named slots exist, one per
phase"). -/
inductive Slot where
  | classification
  | earliness
  deriving DecidableEq

/-- The file name of a checkpoint slot relative to the store directory
(source lines 163-167). -/
def slotFile : Slot → String
  | .classification => "model_" ++ CLASSIFICATION_PHASE_NAME ++ ".pth"
  | .earliness => "model_" ++ EARLINESS_PHASE_NAME ++ ".pth"

/-- The checkpoint writes performed along a trace: `ending_phase_classification_event`
(source lines 172-174) snapshots to the classification slot and
`ending_phase_earliness_event` (source lines 179-181) to the earliness slot,
each at the epoch-counter value at which the event fired. -/
def checkpointWrites (l : List Action) : List (Nat × Slot) :=
  l.filterMap fun a =>
    match a with
    | .event e .endCls => some (e, .classification)
    | .event e .endEarl => some (e, .earliness)
    | _ => none

/-- Selects the `StartingClassification` events of a trace. -/
def isStartCls : Action → Bool
  | .event _ .startCls => true
  | _ => false

/-- Selects the `StartingEarliness` events of a trace. -/
def isStartEarl : Action → Bool
  | .event _ .startEarl => true
  | _ => false

/-- Selects the test passes of a trace. -/
def isTest : Action → Bool
  | .test _ => true
  | _ => false

/-- Selects the training passes of a trace. -/
def isTrain : Action → Bool
  | .train _ => true
  | _ => false

lemma checkpointWrites_append (a b : List Action) :
    checkpointWrites (a ++ b) = checkpointWrites a ++ checkpointWrites b :=
  List.filterMap_append ..

lemma writes_check_events (k sw ep : Nat) :
    checkpointWrites (check_events k sw ep) =
      if k = 0 then []
      else if k = sw then [(k, Slot.classification)]
      else if k = ep then [(k, Slot.earliness)]
      else [] := by
  unfold check_events
  split_ifs <;> rfl

/-- The checkpoint writes a run of `fit` performs from epoch counter `e` on:
the classification slot is written once at `sw` when the loop still passes
through `sw` and the final check does not shadow it, and the final
`check_events` at the epoch budget writes whichever slot its branch order
selects. -/
def writesFormula (ep sw e : Nat) : List (Nat × Slot) :=
  (if 0 < sw ∧ e ≤ sw ∧ sw < ep then [(sw, Slot.classification)] else [])
    ++ (if ep = 0 then []
        else if ep = sw then [(ep, Slot.classification)]
        else [(ep, Slot.earliness)])

lemma writes_fitFrom (ep sw cad : Nat) :
    ∀ e, e ≤ ep → checkpointWrites (fitFrom ep sw cad e) = writesFormula ep sw e := by
  have main : ∀ n e, ep - e ≤ n → e ≤ ep →
      checkpointWrites (fitFrom ep sw cad e) = writesFormula ep sw e := by
    intro n
    induction n with
    | zero =>
      intro e hn he
      have heq : e = ep := by omega
      subst heq
      rw [fitFrom, dif_neg (by omega : ¬ e < e), writes_check_events, writesFormula]
      split_ifs <;> first | rfl | omega
    | succ n ih =>
      intro e hn he
      by_cases hlt : e < ep
      · rw [fitFrom, dif_pos hlt]
        have h1 : checkpointWrites [Action.train (e + 1)] = [] := rfl
        have h2 : checkpointWrites
            (if (e + 1) % cad = 0 then [Action.test (e + 1)] else []) = [] := by
          split <;> rfl
        have h3 : checkpointWrites [Action.report (e + 1)] = [] := rfl
        rw [checkpointWrites_append, checkpointWrites_append, checkpointWrites_append,
          checkpointWrites_append, h1, h2, h3, ih (e + 1) (by omega) (by omega),
          writes_check_events, writesFormula, writesFormula]
        split_ifs <;> try rfl
        all_goals try omega
        all_goals simp_all
      · have heq : e = ep := by omega
        subst heq
        rw [fitFrom, dif_neg hlt, writes_check_events, writesFormula]
        split_ifs <;> first | rfl | omega
  intro e he
  exact main (ep - e) e le_rfl he

lemma startCls_check_events (k sw ep : Nat) :
    (check_events k sw ep).filter isStartCls =
      if k = 0 then [Action.event 0 Ev.startCls] else [] := by
  unfold check_events
  split_ifs <;> simp_all [isStartCls]

lemma startCls_fitFrom (ep sw cad : Nat) :
    ∀ e, (fitFrom ep sw cad e).filter isStartCls =
      if e = 0 then [Action.event 0 Ev.startCls] else [] := by
  have main : ∀ n e, ep - e ≤ n →
      (fitFrom ep sw cad e).filter isStartCls =
        if e = 0 then [Action.event 0 Ev.startCls] else [] := by
    intro n
    induction n with
    | zero =>
      intro e hn
      rw [fitFrom, dif_neg (by omega : ¬ e < ep), startCls_check_events]
    | succ n ih =>
      intro e hn
      by_cases hlt : e < ep
      · rw [fitFrom, dif_pos hlt]
        have h2 : (if (e + 1) % cad = 0 then [Action.test (e + 1)] else []).filter
            isStartCls = [] := by
          split <;> rfl
        rw [List.filter_append, List.filter_append, List.filter_append,
          List.filter_append, h2, ih (e + 1) (by omega), startCls_check_events]
        split_ifs <;> simp_all [isStartCls]
      · rw [fitFrom, dif_neg hlt, startCls_check_events]
  intro e
  exact main (ep - e) e le_rfl

lemma startEarl_check_events (k sw ep : Nat) :
    (check_events k sw ep).filter isStartEarl =
      if ¬ k = 0 ∧ k = sw then [Action.event sw Ev.startEarl] else [] := by
  unfold check_events
  split_ifs <;> simp_all [isStartEarl]

lemma startEarl_fitFrom (ep sw cad : Nat) :
    ∀ e, e ≤ ep → (fitFrom ep sw cad e).filter isStartEarl =
      if 0 < sw ∧ e ≤ sw ∧ sw ≤ ep then [Action.event sw Ev.startEarl] else [] := by
  have main : ∀ n e, ep - e ≤ n → e ≤ ep →
      (fitFrom ep sw cad e).filter isStartEarl =
        if 0 < sw ∧ e ≤ sw ∧ sw ≤ ep then [Action.event sw Ev.startEarl] else [] := by
    intro n
    induction n with
    | zero =>
      intro e hn he
      have heq : e = ep := by omega
      subst heq
      rw [fitFrom, dif_neg (by omega : ¬ e < e), startEarl_check_events]
      split_ifs <;> first | rfl | omega
    | succ n ih =>
      intro e hn he
      by_cases hlt : e < ep
      · rw [fitFrom, dif_pos hlt]
        have h2 : (if (e + 1) % cad = 0 then [Action.test (e + 1)] else []).filter
            isStartEarl = [] := by
          split <;> rfl
        rw [List.filter_append, List.filter_append, List.filter_append,
          List.filter_append, h2, ih (e + 1) (by omega) (by omega), startEarl_check_events]
        split_ifs <;> try rfl
        all_goals try omega
      · have heq : e = ep := by omega
        subst heq
        rw [fitFrom, dif_neg hlt, startEarl_check_events]
        split_ifs <;> first | rfl | omega
  intro e he
  exact main (ep - e) e le_rfl he

lemma test_check_events (k sw ep : Nat) :
    (check_events k sw ep).filter isTest = [] := by
  unfold check_events
  split_ifs <;> rfl

lemma train_check_events (k sw ep : Nat) :
    (check_events k sw ep).filter isTrain = [] := by
  unfold check_events
  split_ifs <;> rfl

/-- A runtime failure of `fit` or of an epoch pass: dereferencing the absent
`visdom` attribute (`AttributeError`), reading a missing key of the `stats`
mapping (`KeyError`), or returning the loop-local `stats` binding after a loop
with zero iterations (`UnboundLocalError`).  The epoch recorded is the value
of the epoch counter during the failing iteration of `fit`. -/
inductive RunError where
  | missingVisdom (epoch : Nat)
  | missingKey (epoch : Nat) (key : String)
  | unboundLocal
  deriving DecidableEq

/-- The keys of the `stats` mapping returned by `train_epoch` (source lines
183-209): the keys of the auxiliary stats mapping produced by the Model's
loss function and folded by the metric accumulator, plus `"accuracy"` (line
207).  Modelled from the spec: `ClassMetric.add` and the Model loss functions
are not under `src/`; spec sections 3 and 6 describe `add` as folding
per-batch statistics into running aggregates, so it is embedded as
key-preserving, with the auxiliary keys abstract as `base`. -/
def trainStatsKeys (base : List String) : List String :=
  "accuracy" :: base

/-- The keys of the `stats` mapping returned by `test_epoch` (source lines
211-245): the train-pass keys plus the five visual-report keys attached after
the batch loop (lines 237-243). -/
def testStatsKeys (base : List String) : List String :=
  trainStatsKeys base ++ ["confusion_matrix", "targets", "inputs", "weights", "probas"]

/-- The `stats` keys the visual-report step of `fit` reads, in source order:
`"confusion_matrix"` (line 121) and `"targets"` (line 125) unconditionally,
then `"probas"`, `"inputs"`, `"weights"` inside the sample loop (lines
130-137), which runs only when the number of samples to show is positive. -/
def reportReadKeys (nSamples : Nat) : List String :=
  ["confusion_matrix", "targets"]
    ++ (if nSamples = 0 then [] else ["probas", "inputs", "weights"])

/-- Source lines 44-45 of `__init__`: the `visdom` attribute is assigned only
when a `visdomenv` is provided; otherwise the attribute does not exist. -/
def initVisdom (visdomenv : Option String) : Option Unit :=
  match visdomenv with
  | some _ => some ()
  | none => none

/-- Source lines 105-142, `Trainer.fit`, tracking what the per-epoch
visual-report step can actually access: each iteration runs the train pass
(whose `stats` keys are `trainStatsKeys base`), overwrites `stats` with the
test pass result when the incremented epoch counter is a multiple of the test
cadence (lines 115-118), then dereferences `self.visdom` (line 121,
`AttributeError` when the attribute was never assigned) and reads the report
keys from `stats` (`KeyError` on the first key that is absent).  Loaders are
assumed non-empty, and train/test passes are assumed not to fail otherwise. -/
def fitRun (ep cad : Nat) (visdom : Option Unit) (base : List String)
    (nSamples : Nat) (epoch : Nat) : Except RunError Unit :=
  if _h : epoch < ep then
    let statsKeys :=
      if (epoch + 1) % cad = 0 then testStatsKeys base else trainStatsKeys base
    match visdom with
    | none => .error (RunError.missingVisdom (epoch + 1))
    | some _ =>
      match (reportReadKeys nSamples).find? (fun k => decide (k ∉ statsKeys)) with
      | some k => .error (RunError.missingKey (epoch + 1) k)
      | none => fitRun ep cad visdom base nSamples (epoch + 1)
  else
    .ok ()
termination_by ep - epoch

/-- The `stats` binding produced by the batch loop shared by `train_epoch`
and `test_epoch` (source lines 190-207 and 221-235): each iteration rebinds
`stats`; after zero iterations the binding does not exist.  `B` is the opaque
batch type. -/
def epochLoopStats {B : Type} (batches : List B) (base : List String) :
    Option (List String) :=
  batches.foldl (fun _ _ => some (trainStatsKeys base)) none

/-- Source lines 183-209, `Trainer.train_epoch`: returns the batch loop's
`stats` binding; with zero batches `return stats` raises
`UnboundLocalError`. -/
def train_epoch {B : Type} (batches : List B) (base : List String) :
    Except RunError (List String) :=
  match epochLoopStats batches base with
  | some stats => .ok stats
  | none => .error RunError.unboundLocal

/-- Source lines 211-245, `Trainer.test_epoch`: after the batch loop it
attaches the five visual-report keys to `stats` (lines 237-243); with zero
batches the first attachment `stats["confusion_matrix"] = ...` raises
`UnboundLocalError`. -/
def test_epoch {B : Type} (batches : List B) (base : List String) :
    Except RunError (List String) :=
  match epochLoopStats batches base with
  | some stats =>
    .ok (stats ++ ["confusion_matrix", "targets", "inputs", "weights", "probas"])
  | none => .error RunError.unboundLocal

lemma epochLoopStats_cons {B : Type} (b : B) (bs : List B) (base : List String) :
    epochLoopStats (b :: bs) base = some (trainStatsKeys base) := by
  have aux : ∀ (l : List B),
      l.foldl (fun _ _ => some (trainStatsKeys base)) (some (trainStatsKeys base))
        = some (trainStatsKeys base) := by
    intro l
    induction l with
    | nil => rfl
    | cons x xs ih => exact ih
  exact aux bs

/-- A concrete trainer over unit collaborator states, for evaluating the
theorems below at explicit inputs (constructor defaults for the fields the
claims do not vary). -/
def sampleTrainer (mode : String) (sw ep e : Nat) : Trainer Unit Unit Unit Unit :=
  { epochs := ep
    switch_epoch := sw
    test_every_n_epochs := 1
    earliness_factor := ()
    entropy_factor := ()
    lossmode := mode
    store := "/tmp"
    epoch := e
    modelState := ()
    optimizerState := ()
    loggerData := () }

/-- C6: phase is a pure function of the epoch counter: `get_phase` returns
the classification phase name when `epoch < switch_epoch` and the earliness
phase name when `epoch ≥ switch_epoch`, and depends on nothing but these two
counters (no stored phase value exists in the trainer state). -/
theorem get_phase_pure_threshold (t : Trainer M O L F) :
    (t.epoch < t.switch_epoch → get_phase t = CLASSIFICATION_PHASE_NAME) ∧
    (t.switch_epoch ≤ t.epoch → get_phase t = EARLINESS_PHASE_NAME) ∧
    (∀ (t2 : Trainer M O L F), t.epoch = t2.epoch →
      t.switch_epoch = t2.switch_epoch → get_phase t = get_phase t2) := by
  refine ⟨fun h => ?_, fun h => ?_, fun t2 h1 h2 => ?_⟩
  · rw [get_phase, if_pos h]
  · rw [get_phase, if_neg (by omega)]
  · rw [get_phase, get_phase, h1, h2]

/-- C6 witness: the threshold evaluated at a concrete trainer with
`epoch = 1`, `switch_epoch = 2` and at one with `epoch = 3`. -/
theorem get_phase_pure_threshold_witness :
    get_phase (sampleTrainer "twophase_linear_loss" 2 4 1) = CLASSIFICATION_PHASE_NAME ∧
    get_phase (sampleTrainer "twophase_linear_loss" 2 4 3) = EARLINESS_PHASE_NAME :=
  ⟨(get_phase_pure_threshold (sampleTrainer "twophase_linear_loss" 2 4 1)).1 (by decide),
   (get_phase_pure_threshold (sampleTrainer "twophase_linear_loss" 2 4 3)).2.1 (by decide)⟩

/-- C4: with `loss_mode = "twophase_linear_loss"` and `switch_epoch = 2`,
dispatch with a non-null epoch argument delegates to the Model's plain
cross-entropy loss when the trainer's epoch counter is 1, and to
`early_loss_linear` with `alpha` the configured earliness factor and
`entropy_factor` the configured entropy factor when the counter is 3. -/
theorem twophase_linear_loss_dispatch (t : Trainer M O L F) (i : I) (tg : T)
    (e : Nat) (hm : t.lossmode = "twophase_linear_loss") (hs : t.switch_epoch = 2) :
    (t.epoch = 1 →
      loss_criterion t i tg (some e) t.earliness_factor t.entropy_factor
        = .call (.loss_cross_entropy i tg)) ∧
    (t.epoch = 3 →
      loss_criterion t i tg (some e) t.earliness_factor t.entropy_factor
        = .call (.early_loss_linear i tg t.earliness_factor t.entropy_factor)) := by
  constructor <;> intro hep <;>
    simp [loss_criterion, hm, hs, get_phase, hep,
      CLASSIFICATION_PHASE_NAME, EARLINESS_PHASE_NAME]

/-- C4 witness: the two dispatch outcomes at a concrete trainer. -/
theorem twophase_linear_loss_dispatch_witness :
    loss_criterion (sampleTrainer "twophase_linear_loss" 2 4 1) () () (some 1) () ()
      = .call (.loss_cross_entropy () ()) ∧
    loss_criterion (sampleTrainer "twophase_linear_loss" 2 4 3) () () (some 3) () ()
      = .call (.early_loss_linear () () () ()) :=
  ⟨(twophase_linear_loss_dispatch (sampleTrainer "twophase_linear_loss" 2 4 1)
      () () 1 rfl rfl).1 rfl,
   (twophase_linear_loss_dispatch (sampleTrainer "twophase_linear_loss" 2 4 3)
      () () 3 rfl rfl).2 rfl⟩

/-- C2 counterexample: the claim fails as stated.  With the unrecognized
mode `"definitely_wrong"` and a null epoch argument, dispatch silently
returns the plain cross-entropy delegation instead of failing (source lines
70-71 run before the mode chain); moreover the `ValueError` message does not
name `"loss_cross_entropy"`, so it does not name the full accepted set. -/
theorem loss_mode_error_counterexample :
    "definitely_wrong" ∉ acceptedLossModes ∧
    loss_criterion (sampleTrainer "definitely_wrong" 2 4 1) () () none () ()
      = .call (.loss_cross_entropy () ()) ∧
    mentions wrongLossModeMsg "loss_cross_entropy" = false :=
  ⟨by decide, rfl, by decide⟩

/-- C2 (amended): with a non-null epoch argument, dispatch with any loss-mode
string outside the accepted set fails with the `ValueError` whose message
names four of the five accepted modes — `early_reward`,
`twophase_early_reward`, `twophase_linear_loss`, `twophase_cross_entropy` —
but omits `loss_cross_entropy`; no default loss is returned on that path. -/
theorem loss_mode_error_amended (t : Trainer M O L F) (i : I) (tg : T) (e : Nat)
    (a b : F) (h : t.lossmode ∉ acceptedLossModes) :
    loss_criterion t i tg (some e) a b = .error wrongLossModeMsg ∧
    mentions wrongLossModeMsg "early_reward" = true ∧
    mentions wrongLossModeMsg "twophase_early_reward" = true ∧
    mentions wrongLossModeMsg "twophase_linear_loss" = true ∧
    mentions wrongLossModeMsg "twophase_cross_entropy" = true ∧
    mentions wrongLossModeMsg "loss_cross_entropy" = false := by
  simp only [acceptedLossModes, List.mem_cons, List.not_mem_nil, or_false] at h
  push_neg at h
  obtain ⟨h1, h2, h3, h4, h5⟩ := h
  exact ⟨by simp [loss_criterion, h1, h2, h3, h4, h5],
    by decide, by decide, by decide, by decide, by decide⟩

/-- C2 witness: the amended statement evaluated at the mode string
`"twophase_early_simple"` (mentioned in the constructor comment of the source
but not accepted by the dispatch chain). -/
theorem loss_mode_error_witness :
    loss_criterion (sampleTrainer "twophase_early_simple" 2 4 3) () () (some 3) () ()
      = .error wrongLossModeMsg :=
  (loss_mode_error_amended (sampleTrainer "twophase_early_simple" 2 4 3)
    () () 3 () () (by decide)).1

/-- C1 counterexample: the claim fails as stated.  `switch_epoch = 2` and
`epochs = 2` satisfy the data-model invariant `switch_epoch ≤ epochs`, yet a
full run of `fit` writes no checkpoint to the earliness slot at all: the
final `check_events` tests `epoch == switch_epoch` before `epoch == epochs`,
so at `epoch = 2` it fires `EndingClassification` and the earliness write is
shadowed. -/
theorem checkpoint_write_missing_counterexample :
    (2 : Nat) ≤ 2 ∧
    checkpointWrites (fitTrace 2 2 1) = [(2, Slot.classification)] := by
  refine ⟨le_rfl, ?_⟩
  rw [fitTrace, writes_fitFrom 2 2 1 0 (by omega)]
  decide

/-- C1 (amended): for every configuration with `0 < switch_epoch < epochs`, a
full run of `fit` performs exactly one checkpoint write at
`epoch == switch_epoch` (classification slot, file
`model_classification.pth`) and exactly one at `epoch == epochs` (earliness
slot, file `model_earliness.pth`), for every positive test cadence.  At the
boundary values `switch_epoch = 0` (no classification write) and
`switch_epoch = epochs` (no earliness write) the original claim fails. -/
theorem checkpoint_writes_exactly_once_amended (ep sw cad : Nat)
    (h1 : 0 < sw) (h2 : sw < ep) (_h3 : 1 ≤ cad) :
    checkpointWrites (fitTrace ep sw cad)
      = [(sw, Slot.classification), (ep, Slot.earliness)] ∧
    slotFile Slot.classification = "model_classification.pth" ∧
    slotFile Slot.earliness = "model_earliness.pth" := by
  refine ⟨?_, by decide, by decide⟩
  rw [fitTrace, writes_fitFrom ep sw cad 0 (by omega), writesFormula,
    if_pos ⟨h1, by omega, h2⟩, if_neg (by omega : ¬ ep = 0),
    if_neg (by omega : ¬ ep = sw)]
  rfl

/-- C1 witness: the amended statement at `epochs = 5`, `switch_epoch = 2`,
test cadence 3. -/
theorem checkpoint_writes_exactly_once_witness :
    checkpointWrites (fitTrace 5 2 3)
      = [(2, Slot.classification), (5, Slot.earliness)] :=
  (checkpoint_writes_exactly_once_amended 5 2 3 (by decide) (by decide) (by decide)).1

/-- C3 counterexample: the claim fails as stated.  Take `epochs = 4`,
`switch_epoch = 2` and the snapshot written by `EndingClassification` at
epoch 2 (it stores `epoch = 2`).  The original run's trace already contains
the classification-slot write at epoch 2, and the run continued from the
restored epoch counter writes the classification slot at epoch 2 again: the
first `check_events` of the continuation re-fires `EndingClassification`
(and `StartingEarliness`), replaying an event that fired before the snapshot
was taken. -/
theorem resume_refires_counterexample :
    (resume (sampleTrainer "twophase_linear_loss" 2 4 0)
        (snapshot (sampleTrainer "twophase_linear_loss" 2 4 2))).epoch = 2 ∧
    checkpointWrites (fitTrace 4 2 1)
      = [(2, Slot.classification), (4, Slot.earliness)] ∧
    checkpointWrites (fitFrom 4 2 1 2)
      = [(2, Slot.classification), (4, Slot.earliness)] := by
  refine ⟨rfl, ?_, ?_⟩
  · rw [fitTrace, writes_fitFrom 4 2 1 0 (by omega)]
    decide
  · rw [writes_fitFrom 4 2 1 2 (by omega)]
    decide

/-- C3 (amended): resuming from a checkpoint restores the epoch counter, the
optimizer state, the logged series and the model weights; but continuing
training from the classification-boundary snapshot (taken at
`epoch = switch_epoch` with `0 < switch_epoch < epochs`) re-fires
`EndingClassification` (writing the classification slot again at
`switch_epoch`) and `StartingEarliness`, while `StartingClassification` is
never re-fired. -/
theorem resume_restores_and_refires_amended (t t2 : Trainer M O L F) (cad : Nat)
    (h1 : t.epoch = t.switch_epoch) (h2 : 0 < t.switch_epoch)
    (h3 : t.switch_epoch < t.epochs) (h4 : t2.epochs = t.epochs)
    (h5 : t2.switch_epoch = t.switch_epoch) :
    (resume t2 (snapshot t)).epoch = t.epoch ∧
    (resume t2 (snapshot t)).optimizerState = t.optimizerState ∧
    (resume t2 (snapshot t)).loggerData = t.loggerData ∧
    (resume t2 (snapshot t)).modelState = t.modelState ∧
    checkpointWrites
        (fitFrom t2.epochs t2.switch_epoch cad (resume t2 (snapshot t)).epoch)
      = [(t.switch_epoch, Slot.classification), (t.epochs, Slot.earliness)] ∧
    (fitFrom t2.epochs t2.switch_epoch cad (resume t2 (snapshot t)).epoch).filter
        isStartEarl = [Action.event t.switch_epoch Ev.startEarl] ∧
    (fitFrom t2.epochs t2.switch_epoch cad (resume t2 (snapshot t)).epoch).filter
        isStartCls = [] := by
  have hre : (resume t2 (snapshot t)).epoch = t.epoch := rfl
  refine ⟨rfl, rfl, rfl, rfl, ?_, ?_, ?_⟩
  · rw [hre, h4, h5, h1, writes_fitFrom _ _ _ _ (by omega), writesFormula,
      if_pos ⟨h2, le_rfl, h3⟩, if_neg (by omega : ¬ t.epochs = 0),
      if_neg (by omega : ¬ t.epochs = t.switch_epoch)]
    rfl
  · rw [hre, h4, h5, h1, startEarl_fitFrom _ _ _ _ (by omega),
      if_pos ⟨h2, le_rfl, by omega⟩]
  · rw [hre, h4, h5, h1, startCls_fitFrom, if_neg (by omega)]

/-- C3 witness: the amended statement evaluated for the concrete resumed run
of the counterexample configuration. -/
theorem resume_restores_and_refires_witness :
    checkpointWrites (fitFrom 4 2 1
        (resume (sampleTrainer "twophase_linear_loss" 2 4 0)
          (snapshot (sampleTrainer "twophase_linear_loss" 2 4 2))).epoch)
      = [(2, Slot.classification), (4, Slot.earliness)] :=
  (resume_restores_and_refires_amended
    (sampleTrainer "twophase_linear_loss" 2 4 2)
    (sampleTrainer "twophase_linear_loss" 2 4 0) 1
    rfl (by decide) (by decide) rfl rfl).2.2.2.2.1

/-- C5: snapshot followed by resume restores the epoch counter, the logged
series, the optimizer state and the model weights to exactly their values at
save time (`Model.save`/`load` and `Logger.get_data`/`resume` embedded as
inverse pairs, per the claim's own assumption); and when the saved epoch
counter is positive — as it is for every snapshot the program writes, since
the ending events fire only at nonzero epochs — the continued run never
fires `StartingClassification`. -/
theorem snapshot_resume_roundtrip (t t2 : Trainer M O L F) (cad : Nat) :
    (resume t2 (snapshot t)).epoch = t.epoch ∧
    (resume t2 (snapshot t)).loggerData = t.loggerData ∧
    (resume t2 (snapshot t)).optimizerState = t.optimizerState ∧
    (resume t2 (snapshot t)).modelState = t.modelState ∧
    (1 ≤ t.epoch →
      (fitFrom t2.epochs t2.switch_epoch cad (resume t2 (snapshot t)).epoch).filter
        isStartCls = []) := by
  refine ⟨rfl, rfl, rfl, rfl, fun h => ?_⟩
  rw [show (resume t2 (snapshot t)).epoch = t.epoch from rfl, startCls_fitFrom,
    if_neg (by omega)]

/-- C5 witness: the round trip evaluated at a concrete trainer saved at
epoch 3. -/
theorem snapshot_resume_roundtrip_witness :
    (fitFrom 4 2 1 (resume (sampleTrainer "early_reward" 2 4 0)
        (snapshot (sampleTrainer "early_reward" 2 4 3))).epoch).filter
      isStartCls = [] :=
  (snapshot_resume_roundtrip (sampleTrainer "early_reward" 2 4 3)
    (sampleTrainer "early_reward" 2 4 0) 1).2.2.2.2 (by decide)

/-- C7: with test cadence 2 and an epoch budget of 4, a run of `fit`
executes the test pass exactly at epochs 2 and 4 and the train pass at every
epoch 1 through 4, for every value of `switch_epoch`. -/
theorem test_cadence_schedule (sw : Nat) :
    (fitTrace 4 sw 2).filter isTest = [Action.test 2, Action.test 4] ∧
    (fitTrace 4 sw 2).filter isTrain
      = [Action.train 1, Action.train 2, Action.train 3, Action.train 4] := by
  constructor <;>
    simp [fitTrace, fitFrom, List.filter_append, test_check_events,
      train_check_events, isTest, isTrain]

/-- C8: on every epoch whose incremented counter is not a multiple of the
test cadence, the visual-report step of `fit` reads `"confusion_matrix"`
from the train pass's `stats`, which does not contain it (under the claim's
premise that the Model's auxiliary stats keys do not include the five
report keys), so `fit` fails on that epoch with a `KeyError`; consequently a
run with at least one epoch can only complete when the cadence is 1. -/
theorem report_requires_test_stats (ep cad : Nat) (base : List String) (nS : Nat)
    (hbase : "confusion_matrix" ∉ base) :
    (∀ e, e < ep → ¬ (e + 1) % cad = 0 →
      fitRun ep cad (some ()) base nS e
        = .error (RunError.missingKey (e + 1) "confusion_matrix")) ∧
    (1 ≤ ep → fitRun ep cad (some ()) base nS 0 = .ok () → cad = 1) := by
  have hmem : "confusion_matrix" ∉ trainStatsKeys base := by
    intro hc
    rcases List.mem_cons.mp hc with h | h
    · exact absurd h (by decide)
    · exact hbase h
  have key : ∀ e, e < ep → ¬ (e + 1) % cad = 0 →
      fitRun ep cad (some ()) base nS e
        = .error (RunError.missingKey (e + 1) "confusion_matrix") := by
    intro e he hc
    have hfind : (reportReadKeys nS).find? (fun k => decide (k ∉ trainStatsKeys base))
        = some "confusion_matrix" := by
      simp only [reportReadKeys, List.cons_append, List.nil_append]
      exact List.find?_cons_of_pos _ (by simpa using hmem)
    rw [fitRun, dif_pos he]
    simp only [if_neg hc, hfind]
  refine ⟨key, fun hep hrun => ?_⟩
  by_contra hne
  have h1 : ¬ (0 + 1) % cad = 0 := by
    intro h
    exact hne (Nat.dvd_one.mp (Nat.dvd_of_mod_eq_zero (by simpa using h)))
  rw [key 0 (by omega) h1] at hrun
  exact Except.noConfusion hrun

/-- C8 witness: with cadence 2 and two epochs, the run fails at its first
epoch with the `"confusion_matrix"` key error. -/
theorem report_requires_test_stats_witness :
    fitRun 2 2 (some ()) [] 1 0 = .error (RunError.missingKey 1 "confusion_matrix") :=
  (report_requires_test_stats 2 2 [] 1 (by decide)).1 0 (by decide) (by decide)

/-- C9: when no `visdomenv` is provided at construction, the `visdom`
attribute is never assigned, and any run of `fit` with at least one epoch
fails on its first epoch's report step when dereferencing `self.visdom`
(source line 121), regardless of cadence, stats keys and sample count. -/
theorem fit_requires_visdom (ep cad : Nat) (base : List String) (nS : Nat)
    (h : 1 ≤ ep) :
    initVisdom none = none ∧
    fitRun ep cad (initVisdom none) base nS 0
      = .error (RunError.missingVisdom 1) := by
  refine ⟨rfl, ?_⟩
  rw [fitRun, dif_pos (by omega : (0 : Nat) < ep)]
  rfl

/-- C9 witness: a three-epoch run without a visualization target fails at
epoch 1. -/
theorem fit_requires_visdom_witness :
    fitRun 3 1 (initVisdom none) ["loss"] 1 0
      = .error (RunError.missingVisdom 1) :=
  (fit_requires_visdom 3 1 ["loss"] 1 (by decide)).2

/-- C10: both epoch passes require a non-empty data source: on zero batches
the loop-local `stats` binding is never created and each pass fails with
`UnboundLocalError` instead of returning empty or default stats, while on
any non-empty batch list they return the folded stats keys. -/
theorem empty_datasource_unbound {B : Type} (base : List String) :
    train_epoch ([] : List B) base = .error RunError.unboundLocal ∧
    test_epoch ([] : List B) base = .error RunError.unboundLocal ∧
    (∀ (b : B) (bs : List B),
      train_epoch (b :: bs) base = .ok (trainStatsKeys base)) ∧
    (∀ (b : B) (bs : List B),
      test_epoch (b :: bs) base = .ok (testStatsKeys base)) := by
  refine ⟨rfl, rfl, fun b bs => ?_, fun b bs => ?_⟩
  · simp only [train_epoch, epochLoopStats_cons]
  · simp only [test_epoch, epochLoopStats_cons]
    rfl

end CropSpec
